import Mathlib

/-!
Verification of the NST-Caramel gameplay scripts.

This development gives a shallow embedding, in Lean 4, of the game-logic
routines of the repository (BombSquad/ballistica gameplay plugins) and proves
or refutes the behavioural properties stated for them.

Modelling conventions, applied uniformly:

* Python floats are modelled as exact rationals (`ℚ`).  Every quantity the
  properties speak about is produced by a handful of additions of decimal
  literals, so exact arithmetic is the intended reading.
* `int(x)` (Python truncation toward zero) is `pyTrunc`.
* Host-engine "node" handles are modelled by a `Bool` that is true exactly
  when the node reference is alive (Python truthiness of a node).
* Cosmetic node attributes (status-label text, colour interpolation, light
  animation curves) are not carried in the state; side effects that the
  properties mention (sounds, popups, score awards, flashes, message
  forwarding) are recorded explicitly in effect lists.
* `assert` statements are modelled as no-ops: the server distribution ships
  optimised bytecode, in which asserts are stripped.  No refutation below
  depends on this choice.
* A Python function that can raise returns `Except PyErr _`.  Referencing a
  name that the module never imports (e.g. `logging` in `nst/actor/spaz.py`)
  raises `NameError`; setting an attribute on `None` raises `AttributeError`.
-/

/-- Python `int(q)` for a rational: truncation toward zero. -/
def pyTrunc (q : ℚ) : ℤ :=
  if 0 ≤ q then ⌊q⌋ else ⌈q⌉

/-- Python exception kinds that the embedded code can raise. -/
inductive PyErr where
  | nameError (missing : String)
  | attributeError
  deriving Repr, DecidableEq

/-! ## PowerupBoxFactory.get_random_powerup_type
    (`bascenev1lib/actor/powerupbox.py`, lines 142-175)

The factory keeps `_lastpoweruptype`; on an unconstrained draw it forces
`'health'` right after a `'curse'`, and otherwise retries uniform draws from
the weighted distribution list until the draw is not in `excludetypes`.
The random index sequence fed to `random.randint(0, len(dist)-1)` is a
parameter `idx : ℕ → ℕ`; the unbounded `while True:` retry loop is embedded
as a fuel-indexed search (`none` = the loop has not exited within `fuel`
iterations, for every fuel ⟺ the loop never exits). -/

/-- The 9 powerup type strings recognised by the repository. -/
def knownPowerupTypes : List String :=
  ["triple_bombs", "punch", "ice_bombs", "impact_bombs", "land_mines",
   "sticky_bombs", "shield", "health", "curse"]

/-- The entry of the weighted distribution list inspected at retry step `k`
(`self._powerupdist[random.randint(0, len(...) - 1)]`). -/
def drawPick (dist : List String) (idx : ℕ → ℕ) (k : ℕ) : String :=
  dist.getD (idx k) ""

/-- The `while True:` retry loop of `get_random_powerup_type`, started at
retry step `k` with `fuel` iterations of budget. -/
def drawLoop (dist ex : List String) (idx : ℕ → ℕ) : ℕ → ℕ → Option String
  | _, 0 => none
  | k, fuel + 1 =>
      let p := drawPick dist idx k
      if p ∈ ex then drawLoop dist ex idx (k + 1) fuel else some p

/-- Embeds `PowerupBoxFactory.get_random_powerup_type`.  Returns the drawn type
together with the updated `_lastpoweruptype` field, or `none` when the retry
loop fails to exit within `fuel` iterations. -/
def getRandomPowerupType (last forcetype : Option String) (ex : List String)
    (dist : List String) (idx : ℕ → ℕ) (fuel : ℕ) :
    Option (String × Option String) :=
  match forcetype with
  | some f => some (f, some f)
  | none =>
      if last = some "curse" then
        some ("health", some "health")
      else
        match drawLoop dist ex idx 0 fuel with
        | some p => some (p, some p)
        | none => none

/-! ## PowerupBox message handling
    (`bascenev1lib/actor/powerupbox.py`, lines 386-439) -/

/-- Messages a `PowerupBox` handles. -/
inductive PBoxMsg where
  | powerupAccept
  | touched
  | die (immediate : Bool)
  | outOfBounds
  | hit (hitSubtype hitType : String)
  deriving Repr, DecidableEq

/-- Observable side effects of `PowerupBox.handlemessage`. -/
inductive PBoxEffect where
  /-- a `sound.play(volume, ...)` call. -/
  | playSound (sound : String) (volume : ℚ)
  /-- a `self.powerup_popup()` call. -/
  | popup (poweruptype : String)
  /-- the `node.handlemessage(bs.PowerupMessage(...))` grant
  forwarded to the touching node. -/
  | forwardPowerup (poweruptype : String)
  /-- a `self.node.delete()` call. -/
  | deleteNode
  /-- shrink animation plus `bs.timer(0.1, self.node.delete)`. -/
  | scheduleDelete
  deriving Repr, DecidableEq

/-- The mutable state of a `PowerupBox` relevant to its message handler. -/
structure PBoxState where
  poweruptype : String
  /-- the `_powersgiven` latch. -/
  powersgiven : Bool
  frozen : Bool
  /-- the prop node is alive. -/
  nodeExists : Bool
  /-- a non-immediate `DieMessage` has scheduled the node's deletion. -/
  deleting : Bool
  deriving Repr, DecidableEq

/-- The `bs.DieMessage` branch of `PowerupBox.handlemessage`. -/
def pboxDie (s : PBoxState) (immediate : Bool) : PBoxState × List PBoxEffect :=
  if s.nodeExists then
    if immediate then
      ({ s with nodeExists := false }, [.deleteNode])
    else
      ({ s with deleting := true }, [.scheduleDelete])
  else
    (s, [])

/-- The ice-hit branch `self.freeze_powerup()` (state part only; the visual
frost/impulse effects are not tracked). -/
def pboxFreeze (s : PBoxState) : PBoxState :=
  if s.nodeExists = false ∨ s.frozen then s else { s with frozen := true }

/-- Embeds `PowerupBox.handlemessage`. -/
def pboxHandlemessage (s : PBoxState) (msg : PBoxMsg) :
    PBoxState × List PBoxEffect :=
  match msg with
  | .powerupAccept =>
      let healthSounds : List PBoxEffect :=
        if s.poweruptype = "health" then
          [.playSound "healthPowerup" 2, .playSound "cashRegister2" 1]
        else []
      let sounds := healthSounds ++
        [.playSound "powerup01" 2, .playSound "pop01" 1]
      let s1 := { s with powersgiven := true }
      let d := pboxDie s1 false
      (d.1, sounds ++ [.popup s.poweruptype] ++ d.2)
  | .touched =>
      if s.powersgiven = false then (s, [.forwardPowerup s.poweruptype])
      else (s, [])
  | .die immediate => pboxDie s immediate
  | .outOfBounds => pboxDie s false
  | .hit hitSubtype hitType =>
      if hitSubtype = "ice" then (pboxFreeze s, [])
      else if hitType ≠ "punch" then pboxDie s false
      else (s, [])

/-- Number of grant popups in an effect list. -/
def countPopups (effs : List PBoxEffect) : ℕ :=
  effs.countP fun e => match e with | .popup _ => true | _ => false

/-- Number of forwarded `PowerupMessage`s in an effect list. -/
def countForwards (effs : List PBoxEffect) : ℕ :=
  effs.countP fun e => match e with | .forwardPowerup _ => true | _ => false

/-- A fresh `triple_bombs` box, as built by `PowerupBox.__init__`. -/
def freshBox : PBoxState :=
  { poweruptype := "triple_bombs", powersgiven := false, frozen := false
    nodeExists := true, deleting := false }

/-- Run a list of messages through `pboxHandlemessage`, accumulating
effects. -/
def pboxRun (s : PBoxState) : List PBoxMsg → PBoxState × List PBoxEffect
  | [] => (s, [])
  | m :: ms =>
      let r := pboxHandlemessage s m
      let rest := pboxRun r.1 ms
      (rest.1, r.2 ++ rest.2)

/-! ## One-o-One: stalemate watchdog
    (`bascenev1lib/game/one-o-one.py`, lines 32, 535-588)

`_update` runs on a repeating 1-second timer.  With exactly 2 duelists and
more than `STALEMATE_TIME = 10` seconds since the last combat action it calls
`_apply_stalemate_damage`, which computes
`damage = int((t - last - STALEMATE_TIME) * 25.0)` and, when positive, sends
each duelist with a live actor node a synthetic `bs.HitMessage` carrying that
`flat_damage`. -/

def STALEMATE_TIME : ℚ := 10

/-- A duelist occupying the `_current_duel` slot. -/
structure Duelist where
  pid : ℕ
  /-- whether `player.actor and player.actor.node` is truthy. -/
  hasLiveActorNode : Bool
  deriving Repr, DecidableEq

/-- The chip damage computed by `_apply_stalemate_damage`. -/
def stalemateDamage (currentTime lastCombatActionTime : ℚ) : ℤ :=
  pyTrunc ((currentTime - lastCombatActionTime - STALEMATE_TIME) * 25)

/-- Embeds `_apply_stalemate_damage`: the synthetic hit messages it sends, as
(player id, flat_damage) pairs. -/
def applyStalemateDamage (currentDuel : List Duelist)
    (currentTime lastCombatActionTime : ℚ) : List (ℕ × ℤ) :=
  let damage := stalemateDamage currentTime lastCombatActionTime
  if 0 < damage then
    (currentDuel.filter (·.hasLiveActorNode)).map fun p => (p.pid, damage)
  else []

/-- The stalemate portion of `_update`: hit messages sent on one watchdog
tick. -/
def oneUpdateStalemate (currentDuel : List Duelist)
    (currentTime lastCombatActionTime : ℚ) : List (ℕ × ℤ) :=
  if currentDuel.length = 2 then
    if STALEMATE_TIME < currentTime - lastCombatActionTime then
      applyStalemateDamage currentDuel currentTime lastCombatActionTime
    else []
  else []

/-! ## One-o-One: death scoring
    (`bascenev1lib/game/one-o-one.py`, lines 729-915)

On `bs.PlayerDiedMessage`: if a killer exists and differs from the victim,
the killer's team score is incremented; otherwise ("suicide" branch) the
victim's team score is decremented, clamped at 0 unless
`Allow Negative Scores` is set. -/

/-- Team scores after the scoring portion of One-o-One's
`handlemessage(bs.PlayerDiedMessage)`.  `scores` maps team ids to scores;
`killer` is `none` when no killer was recorded. -/
def oneDeathScores (allowNegativeScores : Bool) (scores : ℕ → ℤ)
    (victimPid victimTeam : ℕ) (killer : Option (ℕ × ℕ)) : ℕ → ℤ :=
  let suicide : ℕ → ℤ := fun t =>
    if t = victimTeam then
      if allowNegativeScores then scores victimTeam - 1
      else max 0 (scores victimTeam - 1)
    else scores t
  match killer with
  | some (killerPid, killerTeam) =>
      if killerPid ≠ victimPid then
        fun t => if t = killerTeam then scores t + 1 else scores t
      else suicide
  | none => suicide

/-! ## Assault: scoring de-duplication
    (`bascenev1lib/game/assault.py`, lines 103-119, 289-404)

`_handle_score(team)` returns immediately when the captured team's
`capturing_players` list is empty; otherwise, only when the current host time
differs from `_last_score_time`, it records the time, awards 50 points to the
first capturing player, increments the capturing player's team score and
resets the captured team's capture state to the configured capture time. -/

/-- A player standing in an enemy base region. -/
structure APlayer where
  pid : ℕ
  team : ℕ
  deriving Repr, DecidableEq

/-- Per-enemy-team capture state (`Team.capturing_players` /
`Team.capture_timer`). -/
structure ATeamCapture where
  capturingPlayers : List APlayer
  captureTimer : ℚ
  deriving Repr, DecidableEq

/-- Activity-level Assault state touched by `_handle_score`. -/
structure AssaultState where
  lastScoreTime : ℚ
  scores : ℕ → ℤ

/-- Observable effects of `_handle_score`. -/
inductive AssaultEffect where
  /-- a `self.stats.player_scored(player, 50, big_message=True)` call. -/
  | playerScored (pid : ℕ) (points : ℕ) (bigMessage : Bool)
  | scoreSound
  | flashBase
  | endGame
  deriving Repr, DecidableEq

/-- Embeds `_reset_team_capture` (state part). -/
def assaultResetTeamCapture (captureTimeSetting : ℚ) (_team : ATeamCapture) :
    ATeamCapture :=
  { capturingPlayers := [], captureTimer := captureTimeSetting }

/-- Embeds `AssaultGame._handle_score`, with `t` the current host time
(`bs.time()`). -/
def assaultHandleScore (captureTimeSetting scoreToWin : ℚ) (t : ℚ)
    (s : AssaultState) (team : ATeamCapture) :
    AssaultState × ATeamCapture × List AssaultEffect :=
  match team.capturingPlayers with
  | [] => (s, team, [])
  | capturingPlayer :: _ =>
      let scoringTeam := capturingPlayer.team
      if t ≠ s.lastScoreTime then
        let scores' : ℕ → ℤ := fun tm =>
          if tm = scoringTeam then s.scores tm + 1 else s.scores tm
        let s' : AssaultState := { lastScoreTime := t, scores := scores' }
        let effs : List AssaultEffect :=
          [.playerScored capturingPlayer.pid 50 true, .scoreSound,
           .flashBase] ++
          (if scoreToWin ≤ (scores' scoringTeam : ℚ) then [.endGame] else [])
        (s', assaultResetTeamCapture captureTimeSetting team, effs)
      else
        (s, team, [])

/-! ## Frozen One: designate-chosen-player
    (`bascenev1lib/game/frozen_one.py`, lines 15-90)

`_set_chosen_one_player(player)` either recreates the unclaimed flag
(`player is None`) or installs `player` as the chosen one.  Its trailing
block runs `player.actor.frozen = True; player.actor.node.frozen = 1` only
under `hasattr(player, 'actor')` — which is `False` for `None`.  When the
player's `actor` is `None`, the attribute assignment on `None` raises
`AttributeError`.  (The `assert isinstance(player.actor, PlayerSpaz)` line is
inert here per the global convention on asserts.) -/

/-- The chosen player's avatar: the wrapper `frozen` flag and the node's
`frozen` attribute. -/
structure FOActor where
  frozen : Bool
  nodeFrozen : ℕ
  deriving Repr, DecidableEq

/-- Result of `_set_chosen_one_player`. -/
structure FOResult where
  /-- the unclaimed flag (and its light and reset region) was recreated. -/
  flagCreated : Bool
  /-- value of `self._chosen_one_player` afterwards: `none`, or the player's avatar
  state. -/
  chosenActor : Option FOActor
  /-- the `PowerupMessage`s sent to the new holder. -/
  powerups : List String
  /-- the trailing `frozen` assignments ran. -/
  frozeAvatar : Bool
  deriving Repr, DecidableEq

/-- Embeds `FrozenOneGame._set_chosen_one_player`.  `player` is `none` for the
revert-to-unclaimed call; otherwise it carries the player's optional
avatar. -/
def foSetChosenOnePlayer (chosenOneGetsShield chosenOneGetsGloves : Bool)
    (player : Option (Option FOActor)) : Except PyErr FOResult :=
  match player with
  | none =>
      -- `if not player:` branch: recreate flag; then `hasattr(None, 'actor')`
      -- is False, so the frozen assignments are skipped.
      .ok { flagCreated := true, chosenActor := none, powerups := []
            frozeAvatar := false }
  | some actorOpt =>
      let powerups :=
        (if chosenOneGetsShield then ["shield"] else []) ++
        (if chosenOneGetsGloves then ["punch"] else [])
      -- `hasattr(player, 'actor')` is True for a real player;
      -- `player.actor.frozen = True` then raises on a `None` actor.
      match actorOpt with
      | none => .error .attributeError
      | some a =>
          .ok { flagCreated := false
                chosenActor := some { a with frozen := true, nodeFrozen := 1 }
                powerups := powerups, frozeAvatar := true }

/-! ## Streamlined Spaz override
    (`nst/actor/spaz.py`, both deployment trees; the `src/ba_data` revision
    adds the wave gesture but its guards for the operations modelled here are
    identical)

The module imports `quickturn`, `clone_object`/`replace_methods`,
`vanilla_spaz`, `SpazFactory`, `bs`, `Bomb` and `BombDiedMessage` — and
notably never imports `logging`, although `equip_shields` calls
`logging.exception` on its no-node path. -/

/-- The shield hit-point pool (the vendored revisions both set 650). -/
def SHIELD_HP : ℤ := 650

/-- Spaz avatar state relevant to the modelled operations. -/
structure SpazState where
  /-- the `self.node` truthiness (node present and alive). -/
  nodeExists : Bool
  /-- the `self.is_alive()` value. -/
  alive : Bool
  /-- the `self._dead` flag. -/
  dead : Bool
  frozen : Bool
  /-- the `self.node.knockout` value. -/
  knockout : ℚ
  landMineCount : ℤ
  bombCount : ℤ
  bombType : String
  lastBombTimeMs : ℤ
  bombCooldown : ℤ
  /-- whether `self.node.hold_node` is truthy. -/
  holdingNode : Bool
  canGrabSpaz : Bool
  /-- the `self.node.color` channels. -/
  nodeColor : ℚ × ℚ × ℚ
  /-- whether `self.shield` is not `None`. -/
  shieldExists : Bool
  shieldHitpoints : ℤ
  shieldDecayRate : ℚ
  deriving Repr, DecidableEq

/-- Observable effects of the modelled Spaz operations. -/
inductive SpazEffect where
  /-- a `Bomb(...)` actor was spawned with this bomb type. -/
  | spawnBomb (bombType : String)
  | playSound (sound : String) (volume : ℚ)
  /-- a shield node was created with this colour. -/
  | createShield (color : ℚ × ℚ × ℚ)
  /-- the decay timer was armed and the health bar shown. -/
  | armShieldDecay
  deriving Repr, DecidableEq

/-- Embeds `Spaz.set_grab_spaz` (`if not self.node or not self.node.exists() or not
self.is_alive(): return`). -/
def spazSetGrabSpaz (s : SpazState) (c : Bool) : SpazState :=
  if s.nodeExists = false ∨ s.alive = false then s
  else { s with canGrabSpaz := c }

/-- Embeds `Spaz.drop_bomb`.  Returns the updated state, the spawned bomb type (or
`none`), and the effects.  With ammunition available the body dereferences
`self.node` (`position_forward`), which raises on a dead node. -/
def spazDropBomb (s : SpazState) :
    Except PyErr (SpazState × Option String × List SpazEffect) :=
  if (s.landMineCount ≤ 0 ∧ s.bombCount ≤ 0) ∨ s.frozen then
    .ok (s, none, [])
  else if s.nodeExists = false then
    -- `pos = self.node.position_forward` on a dead node.
    .error .attributeError
  else
    let (s1, droppingBomb, bombType) :=
      if 0 < s.landMineCount then
        ({ s with landMineCount := s.landMineCount - 1 }, false, "land_mine")
      else (s, true, s.bombType)
    let s2 :=
      if droppingBomb then { s1 with bombCount := s1.bombCount - 1 } else s1
    .ok (s2, some bombType,
      [.spawnBomb bombType, .playSound "pop01" (6/10)])

/-- Embeds `Spaz.on_bomb_press` with `tms = int(bs.time() * 1000.0)`.  Absent/dead
node, `_dead`, frozen, or knockout short-circuits to a no-op. -/
def spazOnBombPress (s : SpazState) (tms : ℤ) :
    Except PyErr (SpazState × Option String × List SpazEffect) :=
  if s.nodeExists = false ∨ s.dead ∨ s.frozen ∨ 0 < s.knockout then
    .ok (s, none, [])
  else if s.bombCooldown ≤ tms - s.lastBombTimeMs then
    let s1 := { s with lastBombTimeMs := tms }
    if s1.holdingNode = false then
      match spazDropBomb s1 with
      | .ok (s2, b, effs) => .ok (s2, b, effs)
      | .error e => .error e
    else
      .ok (s1, none, [])
  else
    .ok (s, none, [])

/-- The shield colour computed by `equip_shields`: each channel doubled and
clamped below at 0.8, then divided by 1.25 -- or by the largest raw channel
when the raw channels sum to more than 3. -/
def spazShieldColor (c : ℚ × ℚ × ℚ) : ℚ × ℚ × ℚ :=
  let shieldColor := (max (8/10) (c.1 * 2), max (8/10) (c.2.1 * 2),
                      max (8/10) (c.2.2 * 2))
  let neonPower : ℚ :=
    if 3 < c.1 + c.2.1 + c.2.2 then max c.1 (max c.2.1 c.2.2) else 5/4
  (shieldColor.1 / neonPower, shieldColor.2.1 / neonPower,
   shieldColor.2.2 / neonPower)

/-- Embeds `Spaz.equip_shields`.  On a missing node the code runs
`logging.exception(...)`, but the module never imports `logging`, so the
call raises `NameError` instead of logging-and-returning. -/
def spazEquipShields (s : SpazState) (decay : Bool) (decayRate : ℚ) :
    Except PyErr (SpazState × List SpazEffect) :=
  if s.nodeExists = false then
    .error (.nameError "logging")
  else
    let createEffs : List SpazEffect :=
      if s.shieldExists = false then
        [.createShield (spazShieldColor s.nodeColor)]
      else []
    let s1 := { s with shieldExists := true, shieldHitpoints := SHIELD_HP,
                       shieldDecayRate := if decay then decayRate else 0 }
    let decayEffs : List SpazEffect :=
      if 0 < s1.shieldDecayRate then [.armShieldDecay] else []
    .ok (s1, createEffs ++ [.playSound "shieldUp" 1] ++ decayEffs)

/-! ## Musical Flags: round construction
    (`bascenev1lib/game/musical_flags.py`, lines 179-223)

`makeRound` counts survivors `c`, picks `angle = random.randint(0, 359)`,
sets `spacing = 360 // c` (on `ZeroDivisionError` the initial `spacing = 10`
survives), and for `i in range(c-1)` runs `angle += spacing; angle %= 360`
and spawns a flag at `(6*sin(math.degrees(angle)) + .5, 3,
6*cos(math.degrees(angle)) - 4)`.  `math.degrees` converts radians to
degrees (multiplies by `180/π`); `math.sin`/`math.cos` take radians. -/

/-- The `spacing` value as computed by `makeRound` (`360 // c`, with the pre-set 10
surviving a division by zero). -/
def mfSpacing (c : ℕ) : ℕ :=
  if c = 0 then 10 else 360 / c

/-- The value of the `angle` variable (in intended degrees) when flag `i` is
spawned: `angle += spacing; angle %= 360` has run `i+1` times from the
per-round random start `a0`. -/
def mfAngle (a0 c : ℕ) : ℕ → ℕ
  | 0 => (a0 + mfSpacing c) % 360
  | i + 1 => (mfAngle a0 c i + mfSpacing c) % 360

/-- Python's `math.degrees`. -/
noncomputable def mathDegrees (x : ℝ) : ℝ := x * 180 / Real.pi

/-- The number of flags `makeRound` spawns (`for i in range(c-1)`). -/
def mfFlagCount (c : ℕ) : ℕ := c - 1

/-- The position of flag `i` of a round with `c` survivors and random start
angle `a0`. -/
noncomputable def mfFlagPos (a0 c i : ℕ) : ℝ × ℝ × ℝ :=
  let θ := mathDegrees (mfAngle a0 c i)
  (6 * Real.sin θ + 1/2, 3, 6 * Real.cos θ - 4)

/-! ## Conquest: flag capture tick
    (`bascenev1lib/game/conquest.py`, `ConquestFlag.handle_capture`,
    lines 193-422)

The per-flag 0.1 s timer prunes dead contesters, freezes progress when more
than one team contests, applies a 2-second lockout against a *different*
team resuming, then decrements (enemy/neutral flag) or increments (owner
recapturing) the capture timer by `0.1 × min(count, 3)` and, when the timer
reaches ≤ 0, transfers ownership — to the capturing team if the flag was
unowned or `Neutral Flags on Capture` is off, else to neutral — awards every
contesting player 5 points silently, resets the timer to `capture_rate` and
clears `_previous_capturing_team`.

The `team` property setter stores the previous `_team` value into
`_previous_team` before assigning; since `handle_capture` assigns `_team`
directly right before using the setter, `_previous_team` ends up equal to
the *new* owner on completion. -/

/-- A player inside a Conquest flag's capture region. -/
structure CPlayer where
  pid : ℕ
  team : ℕ
  /-- whether `p.exists() and p.actor is not None and p.actor.is_alive()`. -/
  alive : Bool
  deriving Repr, DecidableEq

/-- The `ConquestFlag` state relevant to `handle_capture`. -/
structure ConquestFlagState where
  /-- the field `self._team`, the owning team (`none` = neutral). -/
  team : Option ℕ
  /-- the field `self._previous_team` (maintained by the `team` property setter). -/
  previousTeam : Option ℕ
  playersContesting : List CPlayer
  captureTime : ℚ
  /-- the `Neutral Flags on Capture` setting captured at construction. -/
  leaveNeutral : Bool
  previousCapturingTeam : Option ℕ
  lastCaptureAttemptTime : ℚ
  lastCapturingTeamForLockout : Option ℕ
  wasRecentlyContested : Bool
  deriving Repr, DecidableEq

/-- Observable effects of one `handle_capture` tick. -/
structure CqEffects where
  /-- the `activity.stats.player_scored(player, 5, screenmessage=False)` calls,
  as (pid, points, screenmessage). -/
  awards : List (ℕ × ℕ × Bool) := []
  swipSound : Bool := false
  /-- a `_flash_flag(length, intensity)` call. -/
  flash : Option (ℚ × ℚ) := none
  updateScores : Bool := false
  deriving Repr, DecidableEq

/-- The pruned contester list. -/
def cqPruned (s : ConquestFlagState) : List CPlayer :=
  s.playersContesting.filter (·.alive)

/-- The 2-second lockout: a *different* team attempted a capture less than
2 s ago. -/
def cqLockedOut (currentTime : ℚ) (s : ConquestFlagState)
    (capturingTeam : ℕ) : Bool :=
  match s.lastCapturingTeamForLockout with
  | none => false
  | some lt =>
      (lt != capturingTeam) &&
        decide (currentTime - s.lastCaptureAttemptTime < 2)

/-- The capture timer after this tick's decrement (enemy or neutral flag) or
increment (owner recapturing), with multiplier `min(count, 3)`. -/
def cqUpdatedTime (s : ConquestFlagState) (capturingTeam : ℕ) (count : ℕ) :
    ℚ :=
  let mult : ℚ := (min count 3 : ℕ)
  if s.team = none ∨ s.team ≠ some capturingTeam then
    s.captureTime - 1/10 * mult
  else
    s.captureTime + 1/10 * mult

/-- Embeds `ConquestFlag.handle_capture` (one 0.1 s tick).  `cqLockedOut` and
`cqUpdatedTime` read only fields that pruning and the
`_was_recently_contested` update leave untouched, so they are evaluated on
the incoming state. -/
def cqTick (captureRate currentTime : ℚ) (s : ConquestFlagState) :
    ConquestFlagState × CqEffects :=
  let pruned := cqPruned s
  match pruned with
  | [] => ({ s with playersContesting := [] }, {})
  | p :: rest =>
      let s0 := { s with playersContesting := p :: rest }
      if rest.any (fun q => q.team != p.team) then
        -- more than one team in the region: no capture this tick
        (s0, {})
      else if cqLockedOut currentTime s p.team then
        (s0, {})
      else
        let capturingPlayers := p :: rest
        let t' := cqUpdatedTime s p.team capturingPlayers.length
        let s1 :=
          if s.team = none ∨ s.team ≠ some p.team then
            { s0 with wasRecentlyContested := true, captureTime := t',
                      previousCapturingTeam := some p.team,
                      lastCapturingTeamForLockout := some p.team,
                      lastCaptureAttemptTime := currentTime }
          else
            { s0 with wasRecentlyContested := true, captureTime := t' }
        if t' ≤ 0 then
          let wasSteal :=
            s1.previousTeam.isSome && (s1.previousTeam != some p.team)
          let awards := capturingPlayers.map fun q => (q.pid, 5, false)
          if s1.team = none ∨ s1.leaveNeutral = false then
            ({ s1 with team := some p.team, previousTeam := some p.team,
                       captureTime := captureRate,
                       previousCapturingTeam := none },
             { awards := awards, swipSound := true,
               flash := if wasSteal then some (3/2, 3/2) else some (1, 1),
               updateScores := true })
          else
            ({ s1 with team := none, previousTeam := none,
                       captureTime := captureRate,
                       previousCapturingTeam := none },
             { awards := awards, swipSound := true, flash := some (1/2, 1),
               updateScores := true })
        else if captureRate ≤ t' then
          ({ s1 with captureTime := captureRate,
                     previousCapturingTeam := none }, {})
        else
          (s1, {})

/-! ## Concrete inputs used by witnesses and counterexamples -/

/-- A constant random-index sequence. -/
def zeroIdx : ℕ → ℕ := fun _ => 0

/-- The identity random-index sequence. -/
def idIdx : ℕ → ℕ := fun k => k

/-- A Spaz whose node is gone (dead avatar), carrying no ammunition. -/
def deadNodeSpaz : SpazState :=
  { nodeExists := false, alive := false, dead := true, frozen := false
    knockout := 0, landMineCount := 0, bombCount := 0, bombType := "normal"
    lastBombTimeMs := 0, bombCooldown := 0, holdingNode := false
    canGrabSpaz := true, nodeColor := (1, 1, 1), shieldExists := false
    shieldHitpoints := 0, shieldDecayRate := 0 }

/-- A single live contesting player (id 1, team 0). -/
def cPlayerW : CPlayer := { pid := 1, team := 0, alive := true }

/-- A neutral Conquest flag one tick away from capture by `cPlayerW`. -/
def cFlagW : ConquestFlagState :=
  { team := none, previousTeam := none, playersContesting := [cPlayerW]
    captureTime := 1/10, leaveNeutral := true, previousCapturingTeam := none
    lastCaptureAttemptTime := 0, lastCapturingTeamForLockout := none
    wasRecentlyContested := false }

/-- An owned Conquest flag (team 7) one tick from being captured by the
team-0 player `cPlayerW`, with `Neutral Flags on Capture` enabled. -/
def cFlagOwnedW : ConquestFlagState :=
  { cFlagW with team := some 7, previousTeam := some 7 }

/-! ## Helper lemmas -/

/-- Any value the retry loop returns is outside `excludetypes`. -/
theorem drawLoop_not_mem (dist ex : List String) (idx : ℕ → ℕ) :
    ∀ fuel k p, drawLoop dist ex idx k fuel = some p → p ∉ ex := by
  intro fuel
  induction fuel with
  | zero => intro k p h; simp [drawLoop] at h
  | succ n ih =>
      intro k p h
      rw [drawLoop] at h
      by_cases hmem : drawPick dist idx k ∈ ex
      · rw [if_pos hmem] at h
        exact ih (k + 1) p h
      · rw [if_neg hmem] at h
        cases h
        exact hmem

/-- When every list entry is excluded, the retry loop never exits. -/
theorem drawLoop_all_excluded (dist ex : List String) (idx : ℕ → ℕ)
    (hidx : ∀ k, idx k < dist.length) (hall : ∀ x ∈ dist, x ∈ ex) :
    ∀ fuel k, drawLoop dist ex idx k fuel = none := by
  intro fuel
  induction fuel with
  | zero => intro k; rfl
  | succ n ih =>
      intro k
      have hpick : drawPick dist idx k ∈ ex := by
        have hlt := hidx k
        have : drawPick dist idx k ∈ dist := by
          rw [drawPick, List.getD_eq_getElem dist "" hlt]
          exact List.getElem_mem hlt
        exact hall _ this
      rw [drawLoop, if_pos hpick]
      exact ih (k + 1)

/-- The retry loop exits at the first step whose pick is eligible. -/
theorem drawLoop_first_exit (dist ex : List String) (idx : ℕ → ℕ) :
    ∀ n k fuel, n < fuel → drawPick dist idx (k + n) ∉ ex →
      (∀ j < n, drawPick dist idx (k + j) ∈ ex) →
      drawLoop dist ex idx k fuel = some (drawPick dist idx (k + n)) := by
  intro n
  induction n with
  | zero =>
      intro k fuel hfuel hel _
      match fuel, hfuel with
      | f + 1, _ =>
          rw [drawLoop, if_neg (by simpa using hel)]
          simp
  | succ m ih =>
      intro k fuel hfuel hel hbefore
      match fuel, hfuel with
      | f + 1, hfuel =>
          have h0 : drawPick dist idx k ∈ ex := by
            have := hbefore 0 (Nat.succ_pos m)
            simpa using this
          rw [drawLoop, if_pos h0]
          have harg : k + 1 + m = k + (m + 1) := by omega
          have hel' : drawPick dist idx (k + 1 + m) ∉ ex := by
            rw [harg]; exact hel
          have hbefore' : ∀ j < m, drawPick dist idx (k + 1 + j) ∈ ex := by
            intro j hj
            have : k + 1 + j = k + (j + 1) := by omega
            rw [this]
            exact hbefore (j + 1) (by omega)
          have := ih (k + 1) f (by omega) hel' hbefore'
          rw [this, harg]

/-! ## Claim theorems -/

/-- C3 counterexample: with the previous draw recorded as `curse` and
`excludetypes = ['health']` (non-empty, leaving e.g. `punch` among the 9
known types eligible), the unconstrained draw returns `health`, which lies
inside `excludetypes`: the curse-follow-up rule bypasses the exclusion
check. -/
theorem powerup_draw_exclusion_violated_after_curse :
    getRandomPowerupType (some "curse") none ["health"] knownPowerupTypes
        zeroIdx 1 = some ("health", some "health") ∧
    "health" ∈ ["health"] ∧
    ("punch" ∈ knownPowerupTypes ∧ "punch" ∉ ["health"]) := by
  refine ⟨rfl, by decide, by decide, by decide⟩

/-- C3 amended: an unconstrained draw made when the previously recorded type
is NOT `curse` never returns a member of `excludetypes`; the draw immediately
following a `curse` is a forced `health` regardless of `excludetypes`. -/
theorem powerup_draw_exclusion_respected_unless_curse
    (last : Option String) (ex dist : List String) (idx : ℕ → ℕ) (fuel : ℕ)
    (p : String) (newLast : Option String)
    (hcurse : last ≠ some "curse")
    (hres : getRandomPowerupType last none ex dist idx fuel
      = some (p, newLast)) :
    p ∉ ex := by
  rw [getRandomPowerupType] at hres
  rw [if_neg hcurse] at hres
  cases hloop : drawLoop dist ex idx 0 fuel with
  | none => rw [hloop] at hres; cases hres
  | some q =>
      rw [hloop] at hres
      cases hres
      exact drawLoop_not_mem dist ex idx fuel 0 _ hloop

/-- C3 amended, witness: with no curse recorded, `excludetypes = ['curse']`
and the constant index sequence, the draw returns `triple_bombs`, which is
not excluded. -/
theorem powerup_draw_exclusion_respected_unless_curse_witness :
    (none : Option String) ≠ some "curse" ∧
    getRandomPowerupType none none ["curse"] knownPowerupTypes zeroIdx 1
      = some ("triple_bombs", some "triple_bombs") ∧
    "triple_bombs" ∉ ["curse"] :=
  ⟨by decide, rfl,
    powerup_draw_exclusion_respected_unless_curse none ["curse"]
      knownPowerupTypes zeroIdx 1 "triple_bombs" (some "triple_bombs")
      (by decide) rfl⟩

/-- C10: with no forced type and no recorded `curse`, (a) if `excludetypes`
covers every entry of the distribution list, the retry loop never exits (no
fuel bound suffices, for any random sequence), and (b) if at least one step's
random pick is eligible, the function returns exactly the pick of the first
eligible step, and that pick is outside `excludetypes`. -/
theorem powerup_draw_termination :
    (∀ (dist ex : List String) (idx : ℕ → ℕ) (last : Option String)
        (fuel : ℕ), last ≠ some "curse" → (∀ k, idx k < dist.length) →
        (∀ x ∈ dist, x ∈ ex) →
        getRandomPowerupType last none ex dist idx fuel = none) ∧
    (∀ (dist ex : List String) (idx : ℕ → ℕ) (last : Option String)
        (n fuel : ℕ), last ≠ some "curse" → n < fuel →
        drawPick dist idx n ∉ ex → (∀ j < n, drawPick dist idx j ∈ ex) →
        getRandomPowerupType last none ex dist idx fuel
          = some (drawPick dist idx n, some (drawPick dist idx n)) ∧
        drawPick dist idx n ∉ ex) := by
  constructor
  · intro dist ex idx last fuel hcurse hidx hall
    rw [getRandomPowerupType, if_neg hcurse,
      drawLoop_all_excluded dist ex idx hidx hall fuel 0]
  · intro dist ex idx last n fuel hcurse hfuel hel hbefore
    have hexit := drawLoop_first_exit dist ex idx n 0 fuel hfuel
      (by simpa using hel) (by simpa using hbefore)
    rw [Nat.zero_add] at hexit
    refine ⟨?_, hel⟩
    rw [getRandomPowerupType, if_neg hcurse, hexit]

/-- C10 witness: a distribution consisting only of `curse` with
`excludetypes = ['curse']` never exits (shown at fuel 5); a
`['curse', 'health']` distribution walked by the identity index sequence
exits at step 1 with `health`. -/
theorem powerup_draw_termination_witness :
    getRandomPowerupType none none ["curse"] ["curse"] zeroIdx 5 = none ∧
    (getRandomPowerupType none none ["curse"] ["curse", "health"] idIdx 3
      = some ("health", some "health") ∧ "health" ∉ ["curse"]) := by
  constructor
  · exact powerup_draw_termination.1 ["curse"] ["curse"] zeroIdx none 5
      (by decide) (fun k => by simp [zeroIdx]) (by decide)
  · have h := powerup_draw_termination.2 ["curse", "health"] ["curse"] idIdx
      none 1 3 (by decide) (by omega) (by decide)
      (by intro j hj; have hj0 : j = 0 := Nat.lt_one_iff.mp hj; rw [hj0]; decide)
    simpa [drawPick, idIdx] using h

/-- C2 counterexample: delivering two consecutive `PowerupAcceptMessage`s to
a fresh box fires the grant sound/popup sequence TWICE — the accept branch
never consults the `_powersgiven` latch, so the popup and the grant sounds
replay on the second accept. -/
theorem powerup_box_double_accept_fires_twice :
    countPopups (pboxRun freshBox [.powerupAccept, .powerupAccept]).2 = 2 ∧
    countPopups (pboxRun freshBox [.powerupAccept, .powerupAccept]).2 ≠ 1 ∧
    ((pboxRun freshBox [.powerupAccept, .powerupAccept]).2.count
      (PBoxEffect.playSound "powerup01" 2) = 2) := by
  refine ⟨by decide, by decide, by decide⟩

/-- C2 amended: after the first accepted grant the box has the
`_powersgiven` latch set and its node deletion scheduled, and the latch does
prevent a further *touch* from forwarding a second `PowerupMessage` (so the
effect is granted at most once through the touch path); but a second direct
accept message replays the grant sound/popup sequence, which therefore fires
once per accept message, not once per box. -/
theorem powerup_box_latch_behaviour (s : PBoxState)
    (hn : s.nodeExists = true) :
    (pboxHandlemessage s .powerupAccept).1.powersgiven = true ∧
    (pboxHandlemessage s .powerupAccept).1.deleting = true ∧
    (pboxHandlemessage (pboxHandlemessage s .powerupAccept).1 .touched).2
      = [] ∧
    countPopups
      (pboxHandlemessage (pboxHandlemessage s .powerupAccept).1
        .powerupAccept).2 = 1 := by
  by_cases hh : s.poweruptype = "health" <;>
    simp [pboxHandlemessage, pboxDie, countPopups, hn, hh]

/-- C2 witness: the amended latch behaviour at a fresh `triple_bombs` box. -/
theorem powerup_box_latch_behaviour_witness :
    freshBox.nodeExists = true ∧
    ((pboxHandlemessage freshBox .powerupAccept).1.powersgiven = true ∧
     (pboxHandlemessage freshBox .powerupAccept).1.deleting = true ∧
     (pboxHandlemessage (pboxHandlemessage freshBox .powerupAccept).1
        .touched).2 = [] ∧
     countPopups
       (pboxHandlemessage (pboxHandlemessage freshBox .powerupAccept).1
         .powerupAccept).2 = 1) :=
  ⟨rfl, powerup_box_latch_behaviour freshBox rfl⟩

/-- C7: on a watchdog tick with exactly two duelists (both with live actor
nodes) and more than `STALEMATE_TIME = 10` seconds since the last combat
action, both duelists receive a synthetic hit of
`int((elapsed - 10) * 25)` flat damage — which equals
`⌊(elapsed - 10) * 25⌋` since the elapsed time exceeds the threshold — and
in particular elapsed times of 11, 12 and 15 seconds yield damage 25, 50 and
125. -/
theorem one_o_one_stalemate_damage (a b : Duelist) (t last : ℚ)
    (ha : a.hasLiveActorNode = true) (hb : b.hasLiveActorNode = true)
    (helapsed : STALEMATE_TIME < t - last)
    (hpos : 0 < stalemateDamage t last) :
    (oneUpdateStalemate [a, b] t last
      = [(a.pid, stalemateDamage t last), (b.pid, stalemateDamage t last)]) ∧
    stalemateDamage t last = ⌊(t - last - STALEMATE_TIME) * 25⌋ ∧
    (stalemateDamage 11 0 = 25 ∧ stalemateDamage 12 0 = 50 ∧
     stalemateDamage 15 0 = 125) := by
  refine ⟨?_, ?_, ?_, ?_, ?_⟩
  · rw [oneUpdateStalemate, if_pos (by simp), if_pos helapsed,
      applyStalemateDamage, if_pos hpos]
    simp [ha, hb]
  · have h0 : 0 ≤ (t - last - STALEMATE_TIME) * 25 := by
      have h1 : 0 ≤ t - last - STALEMATE_TIME := by
        rw [STALEMATE_TIME] at helapsed ⊢
        linarith
      positivity
    rw [stalemateDamage, pyTrunc, if_pos h0]
  all_goals norm_num [stalemateDamage, pyTrunc, STALEMATE_TIME]

/-- C7 witness: two live duelists, last combat action at time 0, current
time 15: both receive 125 flat damage. -/
theorem one_o_one_stalemate_damage_witness :
    ((⟨3, true⟩ : Duelist).hasLiveActorNode = true) ∧
    STALEMATE_TIME < (15 : ℚ) - 0 ∧
    0 < stalemateDamage 15 0 ∧
    oneUpdateStalemate [⟨3, true⟩, ⟨4, true⟩] 15 0
      = [(3, stalemateDamage 15 0), (4, stalemateDamage 15 0)] :=
  ⟨rfl, by rw [STALEMATE_TIME]; norm_num,
   by norm_num [stalemateDamage, pyTrunc, STALEMATE_TIME],
   (one_o_one_stalemate_damage ⟨3, true⟩ ⟨4, true⟩ 15 0 rfl rfl
      (by rw [STALEMATE_TIME]; norm_num)
      (by norm_num [stalemateDamage, pyTrunc, STALEMATE_TIME])).1⟩

/-- C6: on a death with no distinct killer (the killer is absent, or is the
victim), the victim's team score becomes `score - 1` when negative scores
are allowed, and `max 0 (score - 1)` otherwise; in particular a team at 0
stays at 0 when the setting is off and drops to -1 when it is on. -/
theorem one_o_one_suicide_scoring (allowNeg : Bool) (scores : ℕ → ℤ)
    (victimPid victimTeam : ℕ) (killer : Option (ℕ × ℕ))
    (hnk : killer = none ∨ ∃ kt, killer = some (victimPid, kt)) :
    (oneDeathScores allowNeg scores victimPid victimTeam killer victimTeam
      = if allowNeg then scores victimTeam - 1
        else max 0 (scores victimTeam - 1)) ∧
    (scores victimTeam = 0 →
      oneDeathScores allowNeg scores victimPid victimTeam killer victimTeam
        = if allowNeg then -1 else 0) := by
  have hmain :
      oneDeathScores allowNeg scores victimPid victimTeam killer victimTeam
        = if allowNeg then scores victimTeam - 1
          else max 0 (scores victimTeam - 1) := by
    rcases hnk with hnone | ⟨kt, hself⟩
    · subst hnone
      simp [oneDeathScores]
    · subst hself
      simp [oneDeathScores]
  refine ⟨hmain, fun h0 => ?_⟩
  rw [hmain, h0]
  cases allowNeg <;> norm_num

/-- C6 witness: suicide (killer = victim, pid 2, team 9) at score 0 — the
score stays 0 with clamping and becomes -1 with negative scores allowed. -/
theorem one_o_one_suicide_scoring_witness :
    (some ((2 : ℕ), (9 : ℕ)) = none ∨
      ∃ kt, some ((2 : ℕ), (9 : ℕ)) = some (2, kt)) ∧
    oneDeathScores false (fun _ => 0) 2 9 (some (2, 9)) 9 = 0 ∧
    oneDeathScores true (fun _ => 0) 2 9 (some (2, 9)) 9 = -1 := by
  refine ⟨Or.inr ⟨9, rfl⟩, ?_, ?_⟩
  · have h := (one_o_one_suicide_scoring false (fun _ => 0) 2 9
      (some (2, 9)) (Or.inr ⟨9, rfl⟩)).2 rfl
    simpa using h
  · have h := (one_o_one_suicide_scoring true (fun _ => 0) 2 9
      (some (2, 9)) (Or.inr ⟨9, rfl⟩)).2 rfl
    simpa using h

/-- C8: two invocations of `_handle_score` at the identical host time `t`,
each seeing a non-empty capturing-players list, increment the scoring team's
score by exactly 1 in total and leave every other team's score unchanged:
the second call is rejected by the `_last_score_time` guard (its effect list
is empty). -/
theorem assault_score_deduplication
    (captureTimeSetting scoreToWin t : ℚ) (s : AssaultState)
    (team : ATeamCapture) (p : APlayer) (rest players2tail : List APlayer)
    (p2 : APlayer)
    (hcp : team.capturingPlayers = p :: rest)
    (ht : t ≠ s.lastScoreTime) :
    (assaultHandleScore captureTimeSetting scoreToWin t
        (assaultHandleScore captureTimeSetting scoreToWin t s team).1
        { (assaultHandleScore captureTimeSetting scoreToWin t s team).2.1
            with capturingPlayers := p2 :: players2tail }).1.scores p.team
      = s.scores p.team + 1 ∧
    (∀ tm, tm ≠ p.team →
      (assaultHandleScore captureTimeSetting scoreToWin t
          (assaultHandleScore captureTimeSetting scoreToWin t s team).1
          { (assaultHandleScore captureTimeSetting scoreToWin t s team).2.1
              with capturingPlayers := p2 :: players2tail }).1.scores tm
        = s.scores tm) ∧
    (assaultHandleScore captureTimeSetting scoreToWin t
        (assaultHandleScore captureTimeSetting scoreToWin t s team).1
        { (assaultHandleScore captureTimeSetting scoreToWin t s team).2.1
            with capturingPlayers := p2 :: players2tail }).2.2 = [] := by
  have hfirst :
      assaultHandleScore captureTimeSetting scoreToWin t s team
        = ({ lastScoreTime := t,
             scores := fun tm =>
               if tm = p.team then s.scores tm + 1 else s.scores tm },
           assaultResetTeamCapture captureTimeSetting team,
           [.playerScored p.pid 50 true, .scoreSound, .flashBase] ++
           (if scoreToWin ≤ ((if p.team = p.team then s.scores p.team + 1
                else s.scores p.team) : ℚ) then [.endGame] else [])) := by
    rw [assaultHandleScore]
    rw [hcp]
    simp [ht]
  rw [hfirst]
  rw [assaultHandleScore]
  simp

/-- C8 witness: capture time 2, score-to-win 3, host time 4, initial state
with last score time 0 and all scores 0; player 1 of team 0 is capturing on
both invocations.  The double invocation at time 4 yields team score 1, not
2, and the second call produces no effects. -/
theorem assault_score_deduplication_witness :
    ({ capturingPlayers := [⟨1, 0⟩], captureTimer := 0 }
        : ATeamCapture).capturingPlayers = [⟨1, 0⟩] ∧
    (4 : ℚ) ≠ ({ lastScoreTime := 0, scores := fun _ => 0 }
        : AssaultState).lastScoreTime ∧
    (assaultHandleScore 2 3 4
        (assaultHandleScore 2 3 4
          { lastScoreTime := 0, scores := fun _ => 0 }
          { capturingPlayers := [⟨1, 0⟩], captureTimer := 0 }).1
        { (assaultHandleScore 2 3 4
            { lastScoreTime := 0, scores := fun _ => 0 }
            { capturingPlayers := [⟨1, 0⟩], captureTimer := 0 }).2.1
            with capturingPlayers := [⟨1, 0⟩] }).1.scores 0 = 1 := by
  refine ⟨rfl, by norm_num, ?_⟩
  have h := (assault_score_deduplication 2 3 4
    { lastScoreTime := 0, scores := fun _ => 0 }
    { capturingPlayers := [⟨1, 0⟩], captureTimer := 0 }
    ⟨1, 0⟩ [] [] ⟨1, 0⟩ rfl (by norm_num)).1
  simpa using h

/-- C9 counterexample: on the revert-to-unclaimed call
(`_set_chosen_one_player(None)`) the trailing freeze block is skipped —
`hasattr(None, 'actor')` is false — so no avatar's `frozen` state is set on
either the wrapper or the node (there is no chosen avatar at all
afterwards), contrary to the claim that the step freezes an avatar in this
case too. -/
theorem frozen_one_unclaimed_does_not_freeze :
    foSetChosenOnePlayer false false none
      = Except.ok { flagCreated := true, chosenActor := none, powerups := []
                    frozeAvatar := false } := rfl

/-- C9 amended: when the step runs with an actual new holder whose avatar is
present, it freezes the avatar on both the wrapper object
(`actor.frozen = True`) and the node (`node.frozen = 1`); when the flag
reverts to unclaimed (`player is None`), the `hasattr` guard fails and no
frozen state is set anywhere (the unclaimed flag is recreated instead). -/
theorem frozen_one_freeze_on_assignment (shield gloves : Bool)
    (a : FOActor) :
    foSetChosenOnePlayer shield gloves (some (some a))
      = Except.ok { flagCreated := false
                    chosenActor := some { a with frozen := true,
                                                 nodeFrozen := 1 }
                    powerups := (if shield then ["shield"] else []) ++
                      (if gloves then ["punch"] else [])
                    frozeAvatar := true } ∧
    foSetChosenOnePlayer shield gloves none
      = Except.ok { flagCreated := true, chosenActor := none, powerups := []
                    frozeAvatar := false } :=
  ⟨rfl, rfl⟩

/-- C5 counterexample: invoking `equip_shields` on a Spaz whose node is gone
is NOT a safe no-op: the guard branch calls `logging.exception`, but the
module never imports `logging`, so the call raises `NameError` out of the
handler. -/
theorem spaz_equip_shields_raises_without_node :
    spazEquipShields deadNodeSpaz false 10
      = Except.error (PyErr.nameError "logging") ∧
    spazEquipShields deadNodeSpaz false 10
      ≠ Except.ok (deadNodeSpaz, []) := by
  refine ⟨rfl, fun h => by simp [spazEquipShields, deadNodeSpaz] at h⟩

/-- C5 amended: with the node absent or dead, `on_bomb_press` and
`set_grab_spaz` short-circuit to safe no-ops, and `drop_bomb` is a safe
no-op returning `None` when the spaz is out of bombs and land mines (that
guard precedes any node access); but `equip_shields` raises `NameError` (the
`logging` name is never imported) instead of no-op'ing. -/
theorem spaz_dead_node_behaviour (s : SpazState) (tms : ℤ) (c decay : Bool)
    (rate : ℚ) (hn : s.nodeExists = false) :
    spazOnBombPress s tms = Except.ok (s, none, []) ∧
    spazSetGrabSpaz s c = s ∧
    spazEquipShields s decay rate
      = Except.error (PyErr.nameError "logging") ∧
    (s.landMineCount ≤ 0 → s.bombCount ≤ 0 →
      spazDropBomb s = Except.ok (s, none, [])) := by
  refine ⟨?_, ?_, ?_, fun hl hb => ?_⟩
  · rw [spazOnBombPress, if_pos (Or.inl hn)]
  · rw [spazSetGrabSpaz, if_pos (Or.inl hn)]
  · rw [spazEquipShields, if_pos hn]
  · rw [spazDropBomb, if_pos (Or.inl ⟨hl, hb⟩)]

/-- C5 witness: the dead-node behaviour at the concrete ammo-less dead-node
Spaz. -/
theorem spaz_dead_node_behaviour_witness :
    deadNodeSpaz.nodeExists = false ∧
    spazOnBombPress deadNodeSpaz 0 = Except.ok (deadNodeSpaz, none, []) ∧
    spazSetGrabSpaz deadNodeSpaz true = deadNodeSpaz ∧
    spazEquipShields deadNodeSpaz false 10
      = Except.error (PyErr.nameError "logging") ∧
    spazDropBomb deadNodeSpaz = Except.ok (deadNodeSpaz, none, []) := by
  have h := spaz_dead_node_behaviour deadNodeSpaz 0 true false 10 rfl
  exact ⟨rfl, h.1, h.2.1, h.2.2.1, h.2.2.2 (by decide) (by decide)⟩

/-- C4 (code bug): `makeRound` feeds the degree-valued `angle` variable
through `math.degrees` — the radians→degrees conversion, multiplying by
`180/π` — before `sin`/`cos`, instead of converting degrees to radians.
With 4 survivors and start angle 0 the first flag's `angle` value is 90, but
the trig functions are evaluated at `90·180/π` radians rather than at 90° =
`90·π/180` radians; and `spacing = 360 // 7 = 51` floor-divides.  (The flags
do all lie on the radius-6 circle centred on `(0.5, 3, -4)`, since
`sin² + cos² = 1` at any argument.) -/
theorem musical_flags_angle_unit_bug :
    mfFlagCount 4 = 3 ∧
    mfAngle 0 4 0 = 90 ∧
    mfSpacing 7 = 51 ∧
    mathDegrees 90 ≠ (90 : ℝ) * Real.pi / 180 ∧
    (∀ a0 c i, ((mfFlagPos a0 c i).1 - 1/2) ^ 2 +
      ((mfFlagPos a0 c i).2.2 + 4) ^ 2 = 36) := by
  refine ⟨rfl, rfl, rfl, ?_, ?_⟩
  · intro h
    rw [mathDegrees] at h
    have hπ := Real.pi_pos
    have hπ' : Real.pi ≠ 0 := ne_of_gt hπ
    field_simp at h
    nlinarith [Real.pi_lt_d2, Real.pi_pos]
  · intro a0 c i
    have hs := Real.sin_sq_add_cos_sq (mathDegrees (mfAngle a0 c i : ℝ))
    simp only [mfFlagPos]
    ring_nf
    nlinarith [hs]

/-- C1: a Conquest capture tick driven by exactly one contesting team (after
pruning), not blocked by the 2-second lockout, whose updated capture timer
reaches 0 or below: if the flag had no owner or `Neutral Flags on Capture`
is off, the owner becomes the contesting team, else the flag becomes
neutral; every contesting player is awarded 5 points with no screen message;
the timer resets to exactly `capture_rate`; and the
previous-capturing-team tracking clears. -/
theorem conquest_capture_completion
    (captureRate currentTime : ℚ) (s : ConquestFlagState) (p : CPlayer)
    (rest : List CPlayer)
    (hprune : cqPruned s = p :: rest)
    (hsame : ∀ q ∈ rest, q.team = p.team)
    (hlock : cqLockedOut currentTime s p.team = false)
    (hdone : cqUpdatedTime s p.team (p :: rest).length ≤ 0) :
    ((s.team = none ∨ s.leaveNeutral = false) →
      (cqTick captureRate currentTime s).1.team = some p.team) ∧
    (s.team ≠ none → s.leaveNeutral = true →
      (cqTick captureRate currentTime s).1.team = none) ∧
    (cqTick captureRate currentTime s).2.awards
      = (p :: rest).map (fun q => (q.pid, 5, false)) ∧
    (cqTick captureRate currentTime s).1.captureTime = captureRate ∧
    (cqTick captureRate currentTime s).1.previousCapturingTeam = none := by
  have hany : (rest.any fun q => q.team != p.team) = false := by
    rw [List.any_eq_false]
    intro q hq
    simp [hsame q hq]
  simp only [cqTick, hprune, hany, hlock, Bool.false_eq_true, if_false]
  rw [if_pos hdone]
  by_cases hdec : s.team = none ∨ s.team ≠ some p.team
  · rw [if_pos hdec]
    by_cases hown : s.team = none ∨ s.leaveNeutral = false
    · rw [if_pos (by simpa using hown)]
      refine ⟨fun _ => rfl, fun hne htrue => ?_, rfl, rfl, rfl⟩
      rcases hown with h1 | h2
      · exact absurd h1 hne
      · rw [htrue] at h2; cases h2
    · rw [if_neg (by simpa using hown)]
      exact ⟨fun h => absurd h hown, fun _ _ => rfl, rfl, rfl, rfl⟩
  · rw [if_neg hdec]
    by_cases hown : s.team = none ∨ s.leaveNeutral = false
    · rw [if_pos (by simpa using hown)]
      refine ⟨fun _ => rfl, fun hne htrue => ?_, rfl, rfl, rfl⟩
      rcases hown with h1 | h2
      · exact absurd h1 hne
      · rw [htrue] at h2; cases h2
    · rw [if_neg (by simpa using hown)]
      exact ⟨fun h => absurd h hown, fun _ _ => rfl, rfl, rfl, rfl⟩

/-- C1 witness: a neutral flag contested by one live team-0 player with 0.1
capture-units left (capture rate 3, host time 5) ends the tick owned by team
0, awarding its one contester 5 silent points, with the timer reset to 3 and
tracking cleared; the same tick on the team-7-owned variant (with `Neutral
Flags on Capture` enabled) ends neutral instead. -/
theorem conquest_capture_completion_witness :
    cqPruned cFlagW = [cPlayerW] ∧
    cqLockedOut 5 cFlagW 0 = false ∧
    cqUpdatedTime cFlagW 0 1 ≤ 0 ∧
    (cqTick 3 5 cFlagW).1.team = some 0 ∧
    (cqTick 3 5 cFlagW).2.awards = [(1, 5, false)] ∧
    (cqTick 3 5 cFlagW).1.captureTime = 3 ∧
    (cqTick 3 5 cFlagW).1.previousCapturingTeam = none ∧
    (cqTick 3 5 cFlagOwnedW).1.team = none := by
  have h := conquest_capture_completion 3 5 cFlagW cPlayerW [] rfl
    (by intro q hq; cases hq) rfl
    (by norm_num [cqUpdatedTime, cFlagW, cPlayerW])
  have h2 := conquest_capture_completion 3 5 cFlagOwnedW cPlayerW [] rfl
    (by intro q hq; cases hq) rfl
    (by norm_num [cqUpdatedTime, cFlagOwnedW, cFlagW, cPlayerW])
  exact ⟨rfl, rfl, by norm_num [cqUpdatedTime, cFlagW, cPlayerW],
    h.1 (Or.inl rfl), h.2.2.1, h.2.2.2.1, h.2.2.2.2,
    h2.2.1 (by simp [cFlagOwnedW, cFlagW]) rfl⟩
